import Mathlib

/-!
Shallow embedding of the Tink/TrueLayer bank-sync integration fragment:

* the TrueLayer transaction normalizer (`normalizeTrueLayerTransaction`,
  planning document, "Normalizer Logic" code block);
* the Tink sync-server service stubs and Express route handlers
  (`packages/sync-server/src/app-tink/app-tink.js`, `tink-service.js`);
* the credential-entry modal submit routine (`TinkInitialiseModal.onSubmit`).

JavaScript strings are `String`, JavaScript numbers that only pass through
(amounts) are `Rat`, optional fields are `Option`, thrown exceptions are
`Except.error` carrying the message, and the lazily initialised module-level
client is threaded as explicit `Option TinkClient` state.
-/

namespace TinkVerify

/-- Monetary value as it appears in TrueLayer payloads:
`{ amount: number, currency: string }`. -/
structure MoneyAmount where
  amount : Rat
  currency : String
deriving DecidableEq

/-- The `TrueLayerTransaction` type from the planned
`packages/loot-core/src/types/models/truelayer.ts`.  `merchant_name?` and
`running_balance?` are optional; every other field is required. -/
structure TrueLayerTransaction where
  transaction_id : String
  timestamp : String
  description : String
  amount : Rat
  currency : String
  transaction_type : String
  transaction_category : String
  merchant_name : Option String
  running_balance : Option MoneyAmount
deriving DecidableEq

/-- The normalized `BankSyncTransaction` shape produced by the normalizer. -/
structure BankSyncTransaction where
  transactionId : String
  date : String
  payeeName : String
  notes : String
  booked : Bool
  transactionAmount : MoneyAmount
  balanceAfterTransaction : Option MoneyAmount
deriving DecidableEq

/-- JavaScript `s.split('T')[0]`: the portion of `s` strictly before the
first `'T'`, or all of `s` when no `'T'` occurs. -/
def splitHeadT (s : String) : String :=
  ⟨s.data.takeWhile (fun c => c != 'T')⟩

/-- JavaScript `a || b` where `a` is an optional string and `b` a string:
`a`'s value when present and truthy (non-empty), otherwise `b`. -/
def jsOrString : Option String → String → String
  | some a, b => if a = "" then b else a
  | none, b => b

/-- The normalizer from the TrueLayer plan ("Normalizer Logic"):

```javascript
function normalizeTrueLayerTransaction(tlTransaction) {
  return {
    transactionId: tlTransaction.transaction_id,
    date: tlTransaction.timestamp.split('T')[0],
    payeeName: tlTransaction.merchant_name || tlTransaction.description,
    notes: tlTransaction.description,
    booked: tlTransaction.transaction_type !== 'PENDING',
    transactionAmount: { amount: ..., currency: ... },
    balanceAfterTransaction: running_balance ? { ... } : undefined,
  };
}
``` -/
def normalizeTrueLayerTransaction (t : TrueLayerTransaction) : BankSyncTransaction :=
  { transactionId := t.transaction_id
    date := splitHeadT t.timestamp
    payeeName := jsOrString t.merchant_name t.description
    notes := t.description
    booked := t.transaction_type != "PENDING"
    transactionAmount := { amount := t.amount, currency := t.currency }
    balanceAfterTransaction :=
      t.running_balance.map (fun rb => { amount := rb.amount, currency := rb.currency }) }

theorem takeWhile_append_stop (p : Char → Bool) (l r : List Char) (c : Char)
    (hl : ∀ x ∈ l, p x = true) (hc : p c = false) :
    (l ++ c :: r).takeWhile p = l := by
  induction l with
  | nil => simp [List.takeWhile_cons, hc]
  | cons a l ih =>
      have ha : p a = true := hl a (by simp)
      simp only [List.cons_append, List.takeWhile_cons, ha, if_true]
      rw [ih (fun x hx => hl x (by simp [hx]))]

theorem splitHeadT_of_append (d rest : String) (hd : ∀ c ∈ d.data, c ≠ 'T') :
    splitHeadT (d ++ "T" ++ rest) = d := by
  unfold splitHeadT
  have hdata : (d ++ "T" ++ rest).data = d.data ++ 'T' :: rest.data := by
    simp [String.data_append]
  rw [hdata, takeWhile_append_stop]
  · intro x hx
    simpa using hd x hx
  · simp

/-- Example transaction from the plan's worked example (ACME Corp). -/
def exTx : TrueLayerTransaction :=
  { transaction_id := "a6f4e8"
    timestamp := "2024-01-15T10:30:00Z"
    description := "ACME CORP LONDON"
    amount := -85/2
    currency := "GBP"
    transaction_type := "DEBIT"
    transaction_category := "PURCHASE"
    merchant_name := some "ACME Corp"
    running_balance := some { amount := 123456/100, currency := "GBP" } }

/-- A transaction whose merchant name is absent and whose description is
empty. -/
def noPayeeTx : TrueLayerTransaction :=
  { transaction_id := "tx0"
    timestamp := "2024-02-02T00:00:00Z"
    description := ""
    amount := 1
    currency := "EUR"
    transaction_type := "CREDIT"
    transaction_category := "TRANSFER"
    merchant_name := none
    running_balance := none }

/-- C5: the normalizer sets `booked := transaction_type !== 'PENDING'`:
status `PENDING` gives `booked = false`, every other status gives
`booked = true`. -/
theorem booked_iff_not_pending (t : TrueLayerTransaction) :
    (normalizeTrueLayerTransaction t).booked = (t.transaction_type != "PENDING") ∧
    (t.transaction_type = "PENDING" → (normalizeTrueLayerTransaction t).booked = false) ∧
    (t.transaction_type ≠ "PENDING" → (normalizeTrueLayerTransaction t).booked = true) := by
  refine ⟨rfl, ?_, ?_⟩ <;> intro h <;>
    simp [normalizeTrueLayerTransaction, h]

theorem booked_iff_not_pending_witness :
    (normalizeTrueLayerTransaction exTx).booked = true :=
  (booked_iff_not_pending exTx).2.2 (by decide)

/-- C6: the normalized `date` is the date-only portion of the UTC
timestamp (everything before the `'T'`); no timezone shift is applied. -/
theorem date_is_utc_date_part (t : TrueLayerTransaction) (d rest : String)
    (hts : t.timestamp = d ++ "T" ++ rest)
    (hd : ∀ c ∈ d.data, c ≠ 'T') :
    (normalizeTrueLayerTransaction t).date = d := by
  show splitHeadT t.timestamp = d
  rw [hts, splitHeadT_of_append d rest hd]

theorem date_is_utc_date_part_witness :
    (normalizeTrueLayerTransaction exTx).date = "2024-01-15" :=
  date_is_utc_date_part exTx "2024-01-15" "10:30:00Z" (by decide) (by decide)

/-- C7 counterexample: with no merchant name and an empty description, the
normalizer yields `payeeName = ""`, not the placeholder `"Unknown"` — there
is no `"Unknown"` fallback in the code. -/
theorem payee_no_unknown_fallback :
    (normalizeTrueLayerTransaction noPayeeTx).payeeName = "" ∧
    (normalizeTrueLayerTransaction noPayeeTx).payeeName ≠ "Unknown" := by
  constructor
  · rfl
  · decide

/-- C7 (amended): `payeeName` is the merchant name when present and
non-empty; otherwise it is the raw description, even when the description
itself is empty (no `"Unknown"` placeholder). -/
theorem payee_fallback (t : TrueLayerTransaction) :
    (∀ m, t.merchant_name = some m → m ≠ "" →
      (normalizeTrueLayerTransaction t).payeeName = m) ∧
    (t.merchant_name = none ∨ t.merchant_name = some "" →
      (normalizeTrueLayerTransaction t).payeeName = t.description) := by
  constructor
  · intro m hm hne
    simp [normalizeTrueLayerTransaction, jsOrString, hm, hne]
  · rintro (hm | hm) <;> simp [normalizeTrueLayerTransaction, jsOrString, hm]

theorem payee_fallback_witness :
    (normalizeTrueLayerTransaction exTx).payeeName = "ACME Corp" ∧
    (normalizeTrueLayerTransaction noPayeeTx).payeeName = noPayeeTx.description :=
  ⟨(payee_fallback exTx).1 "ACME Corp" rfl (by decide),
   (payee_fallback noPayeeTx).2 (Or.inl rfl)⟩

/-- C8: a missing `running_balance` yields a missing
`balanceAfterTransaction` (never a zero balance), and a present
`running_balance` is carried over with exactly its amount and currency. -/
theorem balance_after_passthrough (t : TrueLayerTransaction) :
    (t.running_balance = none →
      (normalizeTrueLayerTransaction t).balanceAfterTransaction = none) ∧
    (∀ rb, t.running_balance = some rb →
      (normalizeTrueLayerTransaction t).balanceAfterTransaction =
        some { amount := rb.amount, currency := rb.currency }) := by
  constructor
  · intro h
    simp [normalizeTrueLayerTransaction, h]
  · intro rb h
    simp [normalizeTrueLayerTransaction, h]

theorem balance_after_passthrough_witness :
    (normalizeTrueLayerTransaction noPayeeTx).balanceAfterTransaction = none ∧
    (normalizeTrueLayerTransaction exTx).balanceAfterTransaction =
      some { amount := 123456/100, currency := "GBP" } :=
  ⟨(balance_after_passthrough noPayeeTx).1 rfl,
   (balance_after_passthrough exTx).2 { amount := 123456/100, currency := "GBP" } rfl⟩

/-- C9: the normalizer is a pure function of its input: equal inputs give
equal outputs, and running it twice on the same input gives identical
results (no clock, randomness or hidden state in the definition). -/
theorem normalize_deterministic (x y : TrueLayerTransaction) (h : x = y) :
    normalizeTrueLayerTransaction x = normalizeTrueLayerTransaction y ∧
    normalizeTrueLayerTransaction x = normalizeTrueLayerTransaction x := by
  subst h
  exact ⟨rfl, rfl⟩

theorem normalize_deterministic_witness :
    normalizeTrueLayerTransaction exTx = normalizeTrueLayerTransaction exTx :=
  (normalize_deterministic exTx exTx rfl).2

/-- The Tink secrets used by the integration (`SecretName` members
`tink_clientId`, `tink_clientSecret`, `tink_market`). -/
inductive SecretName where
  | tink_clientId
  | tink_clientSecret
  | tink_market
deriving DecidableEq

/-- The credential store, abstracted as `secretsService.get`:
`get(name) -> string | undefined`. -/
def SecretsStore : Type := SecretName → Option String

/-- JavaScript truthiness of a secret lookup result: `undefined`/`null`
and the empty string are falsy. -/
def truthy : Option String → Bool
  | none => false
  | some s => s != ""

/-- The service's configuration check (`tink-service.js`):
`!!(secretsService.get(tink_clientId) && secretsService.get(tink_clientSecret))`. -/
def isConfigured (store : SecretsStore) : Bool :=
  truthy (store SecretName.tink_clientId) && truthy (store SecretName.tink_clientSecret)

/-- The placeholder client object built by `getTinkClient`. -/
structure TinkClient where
  clientId : Option String
  clientSecret : Option String
deriving DecidableEq

/-- The lazily initialised module-level client (`let tinkClient = null; ...`),
threaded as explicit state: returns the client plus the new cached value. -/
def getTinkClient (cache : Option TinkClient) (store : SecretsStore) :
    TinkClient × Option TinkClient :=
  match cache with
  | some c => (c, some c)
  | none =>
      let c : TinkClient :=
        { clientId := store SecretName.tink_clientId
          clientSecret := store SecretName.tink_clientSecret }
      (c, some c)

/-- `tinkService.getAccounts`: builds the client, then throws
`Error('Tink account fetching not yet implemented')` (the catch block logs
and rethrows the same error).  `α` is the never-produced success type. -/
def tinkGetAccounts (α : Type) (cache : Option TinkClient) (store : SecretsStore) :
    Option TinkClient × Except String α :=
  ((getTinkClient cache store).2,
   Except.error "Tink account fetching not yet implemented")

/-- `tinkService.getTransactions(accountId, startDate)`: builds the client,
then throws `Error('Tink transaction fetching not yet implemented')` (the
catch block logs and rethrows the same error). -/
def tinkGetTransactions (α : Type) (cache : Option TinkClient) (store : SecretsStore)
    (accountId startDate : Option String) : Option TinkClient × Except String α :=
  ((getTinkClient cache store).2,
   Except.error "Tink transaction fetching not yet implemented")

/-- The `TinkAccount.balances` object from
`packages/loot-core/src/types/models/tink.ts`. -/
structure TinkBalances where
  current : Rat
  available : Option Rat
  currency : String
deriving DecidableEq

/-- The `TinkAccount` type from
`packages/loot-core/src/types/models/tink.ts`. -/
structure TinkAccount where
  id : String
  name : String
  officialName : Option String
  mask : Option String
  type : String
  balances : TinkBalances
deriving DecidableEq

/-- The `data` payload of a response sent by one of the three route
handlers in `app-tink.js`: `{ configured }`, `{ accounts }`, a raw sync
result (type `τ`, never produced by the stub), or `{ error }`. -/
inductive HandlerData (τ : Type) where
  | statusData (configured : Bool)
  | accountsData (accounts : List TinkAccount)
  | resultData (result : τ)
  | errData (error : String)
deriving DecidableEq

/-- Whether a handler `data` payload is an `{ error }` object. -/
def HandlerData.isErr {τ : Type} : HandlerData τ → Bool
  | .errData _ => true
  | _ => false

/-- The response body `res.send({ status: 'ok', data: ... })`. -/
structure ApiResponse (δ : Type) where
  status : String
  data : δ
deriving DecidableEq

/-- The `POST /status` handler: sends
`{ status: 'ok', data: { configured: tinkService.isConfigured() } }`. -/
def statusHandler (τ : Type) (store : SecretsStore) : ApiResponse (HandlerData τ) :=
  { status := "ok", data := HandlerData.statusData (isConfigured store) }

/-- The `POST /accounts` handler: awaits `tinkService.getAccounts()`;
on success sends `{ accounts }`, on a thrown error sends
`{ error: error.message }`. -/
def accountsHandler (τ : Type) (cache : Option TinkClient) (store : SecretsStore) :
    Option TinkClient × ApiResponse (HandlerData τ) :=
  let r := tinkGetAccounts (List TinkAccount) cache store
  match r.2 with
  | Except.ok accounts => (r.1, { status := "ok", data := HandlerData.accountsData accounts })
  | Except.error e => (r.1, { status := "ok", data := HandlerData.errData e })

/-- The `POST /transactions` request body `{ accountId, startDate }`;
either field may be absent. -/
structure TxRequestBody where
  accountId : Option String
  startDate : Option String
deriving DecidableEq

/-- The `POST /transactions` handler: destructures
`req.body || {}`, awaits `tinkService.getTransactions(accountId, startDate)`;
on success sends `data: result`, on a thrown error sends
`{ error: error.message }`. -/
def transactionsHandler (τ : Type) (cache : Option TinkClient) (store : SecretsStore)
    (body : Option TxRequestBody) : Option TinkClient × ApiResponse (HandlerData τ) :=
  let accountId := match body with | some b => b.accountId | none => none
  let startDate := match body with | some b => b.startDate | none => none
  let r := tinkGetTransactions τ cache store accountId startDate
  match r.2 with
  | Except.ok result => (r.1, { status := "ok", data := HandlerData.resultData result })
  | Except.error e => (r.1, { status := "ok", data := HandlerData.errData e })

theorem truthy_iff (o : Option String) :
    truthy o = true ↔ ∃ s, o = some s ∧ s ≠ "" := by
  cases o with
  | none => simp [truthy]
  | some s => simp [truthy]

/-- A store holding non-empty client id and secret and no market. -/
def demoStore : SecretsStore := fun n =>
  match n with
  | SecretName.tink_clientId => some "id"
  | SecretName.tink_clientSecret => some "secret"
  | SecretName.tink_market => none

/-- `demoStore` with the market secret additionally set. -/
def demoStoreMarket : SecretsStore := fun n =>
  match n with
  | SecretName.tink_clientId => some "id"
  | SecretName.tink_clientSecret => some "secret"
  | SecretName.tink_market => some "GB"

/-- The store with no secrets set. -/
def emptyStore : SecretsStore := fun _ => none

/-- C1: the `/status` response data is a boolean `configured` field, which
is `true` iff both `tink_clientId` and `tink_clientSecret` are present and
non-empty; any store agreeing on those two secrets (so in particular one
differing only in `tink_market`) gets the identical response. -/
theorem status_configured (τ : Type) (store : SecretsStore) :
    ((statusHandler τ store).data = HandlerData.statusData (isConfigured store)) ∧
    ((statusHandler τ store).data = HandlerData.statusData true ↔
      (∃ s, store SecretName.tink_clientId = some s ∧ s ≠ "") ∧
      (∃ s, store SecretName.tink_clientSecret = some s ∧ s ≠ "")) ∧
    (∀ store' : SecretsStore,
      store' SecretName.tink_clientId = store SecretName.tink_clientId →
      store' SecretName.tink_clientSecret = store SecretName.tink_clientSecret →
      statusHandler τ store' = statusHandler τ store) := by
  refine ⟨rfl, ?_, ?_⟩
  · rw [← truthy_iff, ← truthy_iff]
    show HandlerData.statusData (τ := τ) (isConfigured store) = HandlerData.statusData true ↔ _
    constructor
    · intro h
      have hb : isConfigured store = true := by injection h
      exact And.intro (Bool.and_elim_left hb) (Bool.and_elim_right hb)
    · intro h
      have hb : isConfigured store = true := by
        unfold isConfigured
        rw [h.1, h.2]
        rfl
      rw [hb]
  · intro store' h1 h2
    unfold statusHandler isConfigured
    rw [h1, h2]

theorem status_configured_witness :
    (statusHandler Unit demoStore).data = HandlerData.statusData true ∧
    statusHandler Unit demoStoreMarket = statusHandler Unit demoStore :=
  ⟨((status_configured Unit demoStore).2.1).mpr
      ⟨⟨"id", rfl, by decide⟩, ⟨"secret", rfl, by decide⟩⟩,
   (status_configured Unit demoStore).2.2 demoStoreMarket rfl rfl⟩

/-- C2 counterexample: the `/status` handler does not respond with a
"not implemented" error; on the empty store it performs its operation and
sends `{ configured: false }`, which is not an `{ error }` payload. -/
theorem status_not_an_error :
    (statusHandler Unit emptyStore).data = HandlerData.statusData false ∧
    (statusHandler Unit emptyStore).data.isErr = false := by
  exact ⟨rfl, rfl⟩

/-- C2 (amended): the `/accounts` and `/transactions` handlers respond with
a "not yet implemented" error for every request, while the `/status`
handler instead performs its operation, responding with the configuration
status and never with an error. -/
theorem handlers_not_implemented (τ : Type) (cache : Option TinkClient)
    (store : SecretsStore) (body : Option TxRequestBody) :
    (accountsHandler τ cache store).2.data =
      HandlerData.errData "Tink account fetching not yet implemented" ∧
    (transactionsHandler τ cache store body).2.data =
      HandlerData.errData "Tink transaction fetching not yet implemented" ∧
    (statusHandler τ store).data = HandlerData.statusData (isConfigured store) ∧
    (statusHandler τ store).data.isErr = false :=
  ⟨rfl, rfl, rfl, rfl⟩

/-- C3: both service stubs reject with the corresponding
"not yet implemented" error message, for every cache state, store and
argument; neither ever returns an `ok` value. -/
theorem service_stubs_throw (α : Type) (cache : Option TinkClient)
    (store : SecretsStore) (accountId startDate : Option String) :
    (tinkGetAccounts α cache store).2 =
      Except.error "Tink account fetching not yet implemented" ∧
    (tinkGetTransactions α cache store accountId startDate).2 =
      Except.error "Tink transaction fetching not yet implemented" ∧
    (∀ v : α, (tinkGetAccounts α cache store).2 ≠ Except.ok v) ∧
    (∀ v : α, (tinkGetTransactions α cache store accountId startDate).2 ≠ Except.ok v) := by
  refine ⟨rfl, rfl, ?_, ?_⟩ <;> intro v h <;> exact Except.noConfusion h

/-- C4: when the service call fails, the `/accounts` and `/transactions`
handlers send `{ status: 'ok', data: { error: <message> } }` where the
`error` string is exactly the thrown exception's message — never the raw
exception — and for `/transactions` this holds for every request body. -/
theorem handlers_error_is_message (τ : Type) (cache : Option TinkClient)
    (store : SecretsStore) (body : Option TxRequestBody) :
    ((accountsHandler τ cache store).2 =
      { status := "ok"
        data := HandlerData.errData "Tink account fetching not yet implemented" } ∧
     (tinkGetAccounts (List TinkAccount) cache store).2 =
       Except.error "Tink account fetching not yet implemented") ∧
    ((transactionsHandler τ cache store body).2 =
      { status := "ok"
        data := HandlerData.errData "Tink transaction fetching not yet implemented" } ∧
     (tinkGetTransactions τ cache store
        (match body with | some b => b.accountId | none => none)
        (match body with | some b => b.startDate | none => none)).2 =
       Except.error "Tink transaction fetching not yet implemented") :=
  ⟨⟨rfl, rfl⟩, ⟨rfl, rfl⟩⟩

/-- The `{ error?, reason? }` object returned by `send('secret-set', ...)`. -/
structure SetResult where
  error : Option String
  reason : Option String
deriving DecidableEq

/-- Result of one run of the modal's submit routine: the credential store
after the performed writes, the `secret-set` calls attempted in order, and
whether `onSuccess` was invoked. -/
structure SubmitResult where
  store : SecretsStore
  attempts : List (SecretName × String)
  success : Bool

/-- Writing one secret into the store. -/
def updateStore (store : SecretsStore) (n : SecretName) (v : String) : SecretsStore :=
  fun m => if m = n then some v else store m

/-- Whether a `secret-set` response reports an error: the code destructures
`(await send(...)) || {}` and tests `if (error)` (truthy, so a present
non-empty string). -/
def sendErr (send : SecretName → String → Option SetResult)
    (n : SecretName) (v : String) : Bool :=
  truthy (((send n v).getD { error := none, reason := none }).error)

/-- `TinkInitialiseModal.onSubmit`: rejects empty fields, then writes
`tink_clientId`, `tink_clientSecret`, `tink_market` in that order via
`send('secret-set', ...)`, returning at the first write whose response
reports an error; `onSuccess()` runs only after all three writes succeed.
`send` is the abstract backend; a write with no reported error stores the
secret, and nothing is ever removed from the store. -/
def onSubmitTinkInit (send : SecretName → String → Option SetResult)
    (store : SecretsStore) (clientId clientSecret market : String) : SubmitResult :=
  if clientId = "" ∨ clientSecret = "" ∨ market = "" then
    { store := store, attempts := [], success := false }
  else
    if sendErr send SecretName.tink_clientId clientId then
      { store := store
        attempts := [(SecretName.tink_clientId, clientId)]
        success := false }
    else
      let store1 := updateStore store SecretName.tink_clientId clientId
      if sendErr send SecretName.tink_clientSecret clientSecret then
        { store := store1
          attempts := [(SecretName.tink_clientId, clientId),
                       (SecretName.tink_clientSecret, clientSecret)]
          success := false }
      else
        let store2 := updateStore store1 SecretName.tink_clientSecret clientSecret
        if sendErr send SecretName.tink_market market then
          { store := store2
            attempts := [(SecretName.tink_clientId, clientId),
                         (SecretName.tink_clientSecret, clientSecret),
                         (SecretName.tink_market, market)]
            success := false }
        else
          { store := updateStore store2 SecretName.tink_market market
            attempts := [(SecretName.tink_clientId, clientId),
                         (SecretName.tink_clientSecret, clientSecret),
                         (SecretName.tink_market, market)]
            success := true }

/-- C10: with all three fields non-empty, the submit routine attempts the
writes in the fixed order client id, client secret, market, stopping at
the first write that reports an error; `onSuccess` is invoked iff all three
writes succeed; and a later failure leaves the earlier writes in the store
(no rollback). -/
theorem onSubmit_spec (send : SecretName → String → Option SetResult)
    (store : SecretsStore) (cid cs mkt : String)
    (hc : cid ≠ "") (hs : cs ≠ "") (hm : mkt ≠ "") :
    ((onSubmitTinkInit send store cid cs mkt).success = true ↔
      sendErr send SecretName.tink_clientId cid = false ∧
      sendErr send SecretName.tink_clientSecret cs = false ∧
      sendErr send SecretName.tink_market mkt = false) ∧
    (sendErr send SecretName.tink_clientId cid = true →
      (onSubmitTinkInit send store cid cs mkt).attempts =
        [(SecretName.tink_clientId, cid)] ∧
      (onSubmitTinkInit send store cid cs mkt).store = store ∧
      (onSubmitTinkInit send store cid cs mkt).success = false) ∧
    (sendErr send SecretName.tink_clientId cid = false →
     sendErr send SecretName.tink_clientSecret cs = true →
      (onSubmitTinkInit send store cid cs mkt).attempts =
        [(SecretName.tink_clientId, cid), (SecretName.tink_clientSecret, cs)] ∧
      (onSubmitTinkInit send store cid cs mkt).store =
        updateStore store SecretName.tink_clientId cid ∧
      (onSubmitTinkInit send store cid cs mkt).success = false) ∧
    (sendErr send SecretName.tink_clientId cid = false →
     sendErr send SecretName.tink_clientSecret cs = false →
     sendErr send SecretName.tink_market mkt = true →
      (onSubmitTinkInit send store cid cs mkt).attempts =
        [(SecretName.tink_clientId, cid), (SecretName.tink_clientSecret, cs),
         (SecretName.tink_market, mkt)] ∧
      (onSubmitTinkInit send store cid cs mkt).store =
        updateStore (updateStore store SecretName.tink_clientId cid)
          SecretName.tink_clientSecret cs ∧
      (onSubmitTinkInit send store cid cs mkt).success = false) ∧
    (sendErr send SecretName.tink_clientId cid = false →
     sendErr send SecretName.tink_clientSecret cs = false →
     sendErr send SecretName.tink_market mkt = false →
      (onSubmitTinkInit send store cid cs mkt).attempts =
        [(SecretName.tink_clientId, cid), (SecretName.tink_clientSecret, cs),
         (SecretName.tink_market, mkt)] ∧
      (onSubmitTinkInit send store cid cs mkt).store =
        updateStore (updateStore (updateStore store SecretName.tink_clientId cid)
          SecretName.tink_clientSecret cs) SecretName.tink_market mkt ∧
      (onSubmitTinkInit send store cid cs mkt).success = true) := by
  have hguard : ¬ (cid = "" ∨ cs = "" ∨ mkt = "") := by
    rintro (h | h | h) <;> [exact hc h; exact hs h; exact hm h]
  cases h1 : sendErr send SecretName.tink_clientId cid <;>
    cases h2 : sendErr send SecretName.tink_clientSecret cs <;>
      cases h3 : sendErr send SecretName.tink_market mkt <;>
        simp [onSubmitTinkInit, hguard, h1, h2, h3]

/-- A backend that fails the `tink_clientSecret` write and accepts the
others. -/
def sendFailSecret : SecretName → String → Option SetResult := fun n _ =>
  match n with
  | SecretName.tink_clientSecret => some { error := some "boom", reason := none }
  | _ => some { error := none, reason := none }

theorem onSubmit_spec_witness :
    (onSubmitTinkInit sendFailSecret emptyStore "a" "b" "c").attempts =
      [(SecretName.tink_clientId, "a"), (SecretName.tink_clientSecret, "b")] ∧
    (onSubmitTinkInit sendFailSecret emptyStore "a" "b" "c").store =
      updateStore emptyStore SecretName.tink_clientId "a" ∧
    (onSubmitTinkInit sendFailSecret emptyStore "a" "b" "c").success = false :=
  (onSubmit_spec sendFailSecret emptyStore "a" "b" "c"
    (by decide) (by decide) (by decide)).2.2.1 rfl rfl

end TinkVerify
